import Mathlib

/-!
Verification of the keyctl backend (`src/keyctl.go`) of the keyring
repository.  The kernel key-management facility is an external
collaborator; following the design notes it is modelled as a
capability-set record `Kernel σ` of stateful primitives, so that the
backend's functions are ordinary state-threading Lean functions.  Three
instantiations are used: a trace-recording kernel (state = list of calls
made), a pure kernel (state = Unit), and an in-memory fake of the
facility for end-to-end roundtrip properties.
-/

namespace Keyctl

/-- Errors produced by the kernel-primitives collaborator.  `enokey` is
the "no such key" condition (syscall.ENOKEY); `other` stands for any
other errno. -/
inductive KErr where
  | enokey
  | other (code : Nat)
deriving DecidableEq, Repr

/-- Go-level error values as built by `src/keyctl.go`.  `keyNotFound` is
the sentinel `ErrKeyNotFound`; `metadataNotSupported` is
`ErrMetadataNotSupported`; `raw` is a kernel error returned unwrapped;
`msgf` is an error built by fmt.Errorf from a format string and one
argument with no cause; `wrapped` is fmt.Errorf wrapping of a cause with
a description. -/
inductive GoErr where
  | keyNotFound
  | metadataNotSupported
  | raw (cause : KErr)
  | msgf (msg : String) (arg : String)
  | wrapped (msg : String) (cause : GoErr)
deriving DecidableEq, Repr

/-- An item: name and opaque byte payload (bytes as naturals). -/
structure Item where
  Key : String
  Data : List Nat
deriving DecidableEq, Repr

/-- Metadata: reserved extension point, never populated by this backend. -/
structure Metadata where
deriving DecidableEq, Repr

/-- Descriptor of a kernel object, as returned by ref.Info(): its type
string ("key" for leaf keys, "keyring" for containers) and its name. -/
structure Info where
  typ : String
  name : String
deriving DecidableEq, Repr

/-- The backend adapter state: the resolved container handle and the
configured permission mask (field `perm`, zero means facility defaults),
mirroring the Go struct keyctlKeyring. -/
structure keyctlKeyring where
  keyring : Nat
  perm : Nat
deriving DecidableEq, Repr

/-- The kernel-primitives collaborator: each capability is a stateful
operation on an abstract kernel state `σ`.  Handles and key ids are
naturals. -/
structure Kernel (σ : Type) where
  sessionKeyring : σ → Except KErr Nat × σ
  userSessionKeyring : σ → Except KErr Nat × σ
  processKeyring : σ → Except KErr Nat × σ
  threadKeyring : σ → Except KErr Nat × σ
  add : Nat → String → List Nat → σ → Except KErr Nat × σ
  setPerm : Nat → Nat → σ → Except KErr Unit × σ
  link : Nat → Nat → σ → Except KErr Unit × σ
  unlink : Nat → Nat → σ → Except KErr Unit × σ
  search : Nat → String → σ → Except KErr Nat × σ
  readKey : Nat → σ → Except KErr (List Nat) × σ
  openKeyring : Nat → String → σ → Except KErr Nat × σ
  createKeyring : Nat → String → σ → Except KErr Nat × σ
  listKeyring : Nat → σ → Except KErr (List Nat) × σ
  keyInfo : Nat → σ → Except KErr Info × σ
  keyUnlink : Nat → σ → Except KErr Unit × σ

def msgAccessSession : String := "accessing session keyring failed"
def msgAddSession : String := "adding key to session failed"
def msgSetPerm : String := "setting permission failed"
def msgLinkKey : String := "linking key to keyring failed"
def msgUnlinkKey : String := "unlinking key from session failed"
def msgCreateKeyring : String := "creating keyring failed"
def msgLinkKeyring : String := "linking keyring failed"
def msgUnlinkKeyring : String := "unlinking keyring from session failed"
def msgAccessScope : String := "accessing keyring failed"
def msgOpenNamed : String := "opening named keyring failed"
def msgCreateNamed : String := "creating named keyring failed"
def msgScopeNotImplemented : String := "scope not yet implemented"
def msgUnknownScope : String := "unknown scope"

/-- Embedding of keyctlKeyring.Get (src/keyctl.go:53-73): search the
container; ENOKEY maps to the sentinel, any other search failure and any
read failure is surfaced unwrapped; on success build the Item. -/
def keyctlKeyring.Get {σ : Type} (κ : Kernel σ) (k : keyctlKeyring) (name : String) (s : σ) :
    Except GoErr Item × σ :=
  match κ.search k.keyring name s with
  | (Except.error e, s) =>
    if e = KErr.enokey then (Except.error GoErr.keyNotFound, s)
    else (Except.error (GoErr.raw e), s)
  | (Except.ok key, s) =>
    match κ.readKey key s with
    | (Except.error e, s) => (Except.error (GoErr.raw e), s)
    | (Except.ok data, s) => (Except.ok { Key := name, Data := data }, s)

/-- Embedding of keyctlKeyring.GetMetadata (src/keyctl.go:77-79): always
returns the zero Metadata together with the sentinel, touching nothing. -/
def keyctlKeyring.GetMetadata {σ : Type} (_κ : Kernel σ) (_k : keyctlKeyring) (_name : String) (s : σ) :
    (Metadata × Option GoErr) × σ :=
  (({}, some GoErr.metadataNotSupported), s)

/-- Embedding of keyctlKeyring.Set (src/keyctl.go:81-116): with zero mask
a single direct add; otherwise the session-keyring relay: resolve
session, add there, set permissions, link to the destination, unlink
from session, aborting at the first failure. -/
def keyctlKeyring.Set {σ : Type} (κ : Kernel σ) (k : keyctlKeyring) (item : Item) (s : σ) :
    Except GoErr Unit × σ :=
  if k.perm = 0 then
    match κ.add k.keyring item.Key item.Data s with
    | (Except.ok _, s) => (Except.ok (), s)
    | (Except.error e, s) => (Except.error (GoErr.raw e), s)
  else
    match κ.sessionKeyring s with
    | (Except.error e, s) => (Except.error (GoErr.wrapped msgAccessSession (GoErr.raw e)), s)
    | (Except.ok session, s) =>
      match κ.add session item.Key item.Data s with
      | (Except.error e, s) => (Except.error (GoErr.wrapped msgAddSession (GoErr.raw e)), s)
      | (Except.ok key, s) =>
        match κ.setPerm key k.perm s with
        | (Except.error e, s) => (Except.error (GoErr.wrapped msgSetPerm (GoErr.raw e)), s)
        | (Except.ok _, s) =>
          match κ.link k.keyring key s with
          | (Except.error e, s) => (Except.error (GoErr.wrapped msgLinkKey (GoErr.raw e)), s)
          | (Except.ok _, s) =>
            match κ.unlink session key s with
            | (Except.error e, s) => (Except.error (GoErr.wrapped msgUnlinkKey (GoErr.raw e)), s)
            | (Except.ok _, s) => (Except.ok (), s)

/-- Embedding of keyctlKeyring.Remove (src/keyctl.go:118-125): every
search failure becomes the not-found sentinel; on success the object is
unlinked and the unlink result returned. -/
def keyctlKeyring.Remove {σ : Type} (κ : Kernel σ) (k : keyctlKeyring) (name : String) (s : σ) :
    Except GoErr Unit × σ :=
  match κ.search k.keyring name s with
  | (Except.error _, s) => (Except.error GoErr.keyNotFound, s)
  | (Except.ok key, s) =>
    match κ.keyUnlink key s with
    | (Except.error e, s) => (Except.error (GoErr.raw e), s)
    | (Except.ok _, s) => (Except.ok (), s)

/-- Loop body of keyctlKeyring.Keys: walk the references in order,
fetching each descriptor and keeping the names whose type is "key"; a
descriptor failure aborts.  The slice result is an Option so that the Go
nil slice (error case) and the non-nil empty slice are distinguished. -/
def keysLoop {σ : Type} (κ : Kernel σ) (references : List Nat) (results : List String) (s : σ) :
    (Option (List String) × Option GoErr) × σ :=
  match references with
  | [] => ((some results, none), s)
  | ref :: rest =>
    match κ.keyInfo ref s with
    | (Except.error e, s) => ((none, some (GoErr.raw e)), s)
    | (Except.ok info, s) =>
      if info.typ = "key" then keysLoop κ rest (results ++ [info.name]) s
      else keysLoop κ rest results s

/-- Embedding of keyctlKeyring.Keys (src/keyctl.go:127-146): list the
container then filter leaf keys via `keysLoop`, starting from the empty
(non-nil) slice. -/
def keyctlKeyring.Keys {σ : Type} (κ : Kernel σ) (k : keyctlKeyring) (s : σ) :
    (Option (List String) × Option GoErr) × σ :=
  match κ.listKeyring k.keyring s with
  | (Except.error e, s) => ((none, some (GoErr.raw e)), s)
  | (Except.ok references, s) => keysLoop κ references [] s

/-- Embedding of keyctlKeyring.createNamedKeyring (src/keyctl.go:148-182):
with zero mask a single direct create under the parent; otherwise the
session-keyring relay for keyrings. -/
def keyctlKeyring.createNamedKeyring {σ : Type} (κ : Kernel σ) (k : keyctlKeyring) (parent : Nat) (name : String) (s : σ) :
    Except GoErr Nat × σ :=
  if k.perm = 0 then
    match κ.createKeyring parent name s with
    | (Except.ok kr, s) => (Except.ok kr, s)
    | (Except.error e, s) => (Except.error (GoErr.raw e), s)
  else
    match κ.sessionKeyring s with
    | (Except.error e, s) => (Except.error (GoErr.wrapped msgAccessSession (GoErr.raw e)), s)
    | (Except.ok session, s) =>
      match κ.createKeyring session name s with
      | (Except.error e, s) => (Except.error (GoErr.wrapped msgCreateKeyring (GoErr.raw e)), s)
      | (Except.ok kr, s) =>
        match κ.setPerm kr k.perm s with
        | (Except.error e, s) => (Except.error (GoErr.wrapped msgSetPerm (GoErr.raw e)), s)
        | (Except.ok _, s) =>
          match κ.link k.keyring kr s with
          | (Except.error e, s) => (Except.error (GoErr.wrapped msgLinkKeyring (GoErr.raw e)), s)
          | (Except.ok _, s) =>
            match κ.unlink session kr s with
            | (Except.error e, s) => (Except.error (GoErr.wrapped msgUnlinkKeyring (GoErr.raw e)), s)
            | (Except.ok _, s) => (Except.ok kr, s)

/-- Embedding of GetKeyringForScope (src/keyctl.go:184-201): the four
supported scope names request the corresponding kernel keyring; "group"
and every other string fail without any kernel call. -/
def GetKeyringForScope {σ : Type} (κ : Kernel σ) (scope : String) (s : σ) :
    Except GoErr Nat × σ :=
  if scope = "user" then
    match κ.userSessionKeyring s with
    | (Except.ok h, s) => (Except.ok h, s)
    | (Except.error e, s) => (Except.error (GoErr.raw e), s)
  else if scope = "group" then
    (Except.error (GoErr.msgf msgScopeNotImplemented scope), s)
  else if scope = "session" then
    match κ.sessionKeyring s with
    | (Except.ok h, s) => (Except.ok h, s)
    | (Except.error e, s) => (Except.error (GoErr.raw e), s)
  else if scope = "process" then
    match κ.processKeyring s with
    | (Except.ok h, s) => (Except.ok h, s)
    | (Except.error e, s) => (Except.error (GoErr.raw e), s)
  else if scope = "thread" then
    match κ.threadKeyring s with
    | (Except.ok h, s) => (Except.ok h, s)
    | (Except.error e, s) => (Except.error (GoErr.raw e), s)
  else
    (Except.error (GoErr.msgf msgUnknownScope scope), s)

/-- Modelled from the spec: the `Config` type lives in the facade (the
repository's config file, not under src/); §6 lists the recognized
options scope (`KeyCtlScope`), containerName (`ServiceName`) and
permissionMask (`KeyCtlPerm`).  `KeyCtlPerm` is modelled as `Int` so
that the guard `cfg.KeyCtlPerm > 0` at src/keyctl.go:22 can be stated
over zero, positive and negative mask values alike. -/
structure Config where
  KeyCtlScope : String
  ServiceName : String
  KeyCtlPerm : Int
deriving DecidableEq, Repr

/-- Embedding of the KeyCtlBackend opener registered in init
(src/keyctl.go:19-51): arm the permission mask only when positive,
resolve the scope keyring, and when a service name is present open the
named keyring, creating it only on an ENOKEY open failure. -/
def openKeyctl {σ : Type} (κ : Kernel σ) (cfg : Config) (s : σ) :
    Except GoErr keyctlKeyring × σ :=
  let perm : Nat := if 0 < cfg.KeyCtlPerm then cfg.KeyCtlPerm.toNat else 0
  match GetKeyringForScope κ cfg.KeyCtlScope s with
  | (Except.error e, s) => (Except.error (GoErr.wrapped msgAccessScope e), s)
  | (Except.ok parent, s) =>
    if cfg.ServiceName = "" then
      (Except.ok { keyring := parent, perm := perm }, s)
    else
      match κ.openKeyring parent cfg.ServiceName s with
      | (Except.ok named, s) => (Except.ok { keyring := named, perm := perm }, s)
      | (Except.error e, s) =>
        if e = KErr.enokey then
          match keyctlKeyring.createNamedKeyring κ { keyring := parent, perm := perm } parent cfg.ServiceName s with
          | (Except.error e2, s) => (Except.error (GoErr.wrapped msgCreateNamed e2), s)
          | (Except.ok named, s) => (Except.ok { keyring := named, perm := perm }, s)
        else
          (Except.error (GoErr.wrapped msgOpenNamed (GoErr.raw e)), s)

/-- One call to the kernel-primitives collaborator, with its arguments. -/
inductive KCall where
  | sessionKeyring
  | userSessionKeyring
  | processKeyring
  | threadKeyring
  | addKey (ring : Nat) (name : String) (data : List Nat)
  | setPermCall (obj : Nat) (perm : Nat)
  | linkCall (ring : Nat) (obj : Nat)
  | unlinkCall (ring : Nat) (obj : Nat)
  | searchCall (ring : Nat) (name : String)
  | readCall (obj : Nat)
  | openKeyringCall (parent : Nat) (name : String)
  | createKeyringCall (parent : Nat) (name : String)
  | listCall (ring : Nat)
  | infoCall (obj : Nat)
  | keyUnlinkCall (obj : Nat)
deriving DecidableEq, Repr

/-- A fixed assignment of outcomes to kernel primitives, used to drive
the trace and pure kernels through every possible success and failure
combination. -/
structure Responses where
  sessionKeyring : Except KErr Nat
  userSessionKeyring : Except KErr Nat
  processKeyring : Except KErr Nat
  threadKeyring : Except KErr Nat
  add : Nat → String → List Nat → Except KErr Nat
  setPerm : Nat → Nat → Except KErr Unit
  link : Nat → Nat → Except KErr Unit
  unlink : Nat → Nat → Except KErr Unit
  search : Nat → String → Except KErr Nat
  readKey : Nat → Except KErr (List Nat)
  openKeyring : Nat → String → Except KErr Nat
  createKeyring : Nat → String → Except KErr Nat
  listKeyring : Nat → Except KErr (List Nat)
  keyInfo : Nat → Except KErr Info
  keyUnlink : Nat → Except KErr Unit

/-- Stateless kernel: every primitive answers from `r`, the state is
trivial. -/
def pureKernel (r : Responses) : Kernel Unit where
  sessionKeyring := fun s => (r.sessionKeyring, s)
  userSessionKeyring := fun s => (r.userSessionKeyring, s)
  processKeyring := fun s => (r.processKeyring, s)
  threadKeyring := fun s => (r.threadKeyring, s)
  add := fun ring name data s => (r.add ring name data, s)
  setPerm := fun obj p s => (r.setPerm obj p, s)
  link := fun ring obj s => (r.link ring obj, s)
  unlink := fun ring obj s => (r.unlink ring obj, s)
  search := fun ring name s => (r.search ring name, s)
  readKey := fun obj s => (r.readKey obj, s)
  openKeyring := fun parent name s => (r.openKeyring parent name, s)
  createKeyring := fun parent name s => (r.createKeyring parent name, s)
  listKeyring := fun ring s => (r.listKeyring ring, s)
  keyInfo := fun obj s => (r.keyInfo obj, s)
  keyUnlink := fun obj s => (r.keyUnlink obj, s)

/-- Trace kernel: every primitive answers from `r` and appends its own
call to the state, which is the list of calls made so far. -/
def traceKernel (r : Responses) : Kernel (List KCall) where
  sessionKeyring := fun t => (r.sessionKeyring, t ++ [KCall.sessionKeyring])
  userSessionKeyring := fun t => (r.userSessionKeyring, t ++ [KCall.userSessionKeyring])
  processKeyring := fun t => (r.processKeyring, t ++ [KCall.processKeyring])
  threadKeyring := fun t => (r.threadKeyring, t ++ [KCall.threadKeyring])
  add := fun ring name data t => (r.add ring name data, t ++ [KCall.addKey ring name data])
  setPerm := fun obj p t => (r.setPerm obj p, t ++ [KCall.setPermCall obj p])
  link := fun ring obj t => (r.link ring obj, t ++ [KCall.linkCall ring obj])
  unlink := fun ring obj t => (r.unlink ring obj, t ++ [KCall.unlinkCall ring obj])
  search := fun ring name t => (r.search ring name, t ++ [KCall.searchCall ring name])
  readKey := fun obj t => (r.readKey obj, t ++ [KCall.readCall obj])
  openKeyring := fun parent name t => (r.openKeyring parent name, t ++ [KCall.openKeyringCall parent name])
  createKeyring := fun parent name t => (r.createKeyring parent name, t ++ [KCall.createKeyringCall parent name])
  listKeyring := fun ring t => (r.listKeyring ring, t ++ [KCall.listCall ring])
  keyInfo := fun obj t => (r.keyInfo obj, t ++ [KCall.infoCall obj])
  keyUnlink := fun obj t => (r.keyUnlink obj, t ++ [KCall.keyUnlinkCall obj])

/-- All-success responses with arbitrary concrete handles, used to
instantiate universally quantified theorems at a concrete point. -/
def okResponses : Responses where
  sessionKeyring := Except.ok 0
  userSessionKeyring := Except.ok 1
  processKeyring := Except.ok 2
  threadKeyring := Except.ok 3
  add := fun _ _ _ => Except.ok 10
  setPerm := fun _ _ => Except.ok ()
  link := fun _ _ => Except.ok ()
  unlink := fun _ _ => Except.ok ()
  search := fun _ _ => Except.ok 10
  readKey := fun _ => Except.ok [7]
  openKeyring := fun _ _ => Except.ok 5
  createKeyring := fun _ _ => Except.ok 6
  listKeyring := fun _ => Except.ok []
  keyInfo := fun _ => Except.ok { typ := "key", name := "k" }
  keyUnlink := fun _ => Except.ok ()

/-- A key object of the in-memory fake facility. -/
structure ModelKey where
  id : Nat
  name : String
  payload : List Nat
  perm : Nat
deriving DecidableEq, Repr

/-- Modelled from the spec: the kernel key-management facility itself is
an out-of-scope collaborator (§1); per the design notes (§9) it is
modelled as an in-memory fake.  Keys are objects with an id, name,
payload and permission bits; keyrings are (id, name) pairs; `links`
lists (container, object) membership edges, newest first. -/
structure ModelState where
  nextId : Nat
  keys : List ModelKey
  rings : List (Nat × String)
  links : List (Nat × Nat)
deriving DecidableEq, Repr

def ModelState.keyById (s : ModelState) (kid : Nat) : Option ModelKey :=
  s.keys.find? (fun k => k.id == kid)

def ModelState.keyName (s : ModelState) (kid : Nat) : Option String :=
  (s.keyById kid).map ModelKey.name

def ModelState.ringLinks (s : ModelState) (ring : Nat) : List Nat :=
  (s.links.filter (fun l => l.1 == ring)).map Prod.snd

/-- Handle of the fake session keyring. -/
def sessionRingId : Nat := 0

/-- Drop the first membership edge equal to (ring, obj): one reference
is removed, later duplicates survive. -/
def removeFirst (links : List (Nat × Nat)) (ring obj : Nat) : List (Nat × Nat) :=
  match links with
  | [] => []
  | l :: rest => if l.1 = ring ∧ l.2 = obj then rest else l :: removeFirst rest ring obj

/-- Modelled from the spec: in-memory fake of the kernel facility (§9).
Adding and creating allocate fresh ids and put the new membership edge
first; searching scans the edges in order and returns the first key of
matching name in the container; unlinking removes the first matching
edge (one reference), while destroying a key via keyUnlink removes
every edge to it. -/
def modelKernel : Kernel ModelState where
  sessionKeyring := fun s => (Except.ok sessionRingId, s)
  userSessionKeyring := fun s => (Except.ok 1, s)
  processKeyring := fun s => (Except.ok 2, s)
  threadKeyring := fun s => (Except.ok 3, s)
  add := fun ring name data s =>
    (Except.ok s.nextId,
      { s with nextId := s.nextId + 1,
               keys := { id := s.nextId, name := name, payload := data, perm := 0 } :: s.keys,
               links := (ring, s.nextId) :: s.links })
  setPerm := fun obj p s =>
    match s.keyById obj with
    | some _ =>
      (Except.ok (),
        { s with keys := s.keys.map (fun k => if k.id = obj then { k with perm := p } else k) })
    | none =>
      if (s.rings.find? (fun rr => rr.1 == obj)).isSome then (Except.ok (), s)
      else (Except.error (KErr.other 22), s)
  link := fun ring obj s => (Except.ok (), { s with links := (ring, obj) :: s.links })
  unlink := fun ring obj s => (Except.ok (), { s with links := removeFirst s.links ring obj })
  search := fun ring name s =>
    match s.links.find? (fun l => l.1 == ring && (s.keyName l.2 == some name)) with
    | some l => (Except.ok l.2, s)
    | none => (Except.error KErr.enokey, s)
  readKey := fun obj s =>
    match s.keyById obj with
    | some k => (Except.ok k.payload, s)
    | none => (Except.error (KErr.other 22), s)
  openKeyring := fun parent name s =>
    match s.links.find? (fun l =>
        l.1 == parent && (s.rings.find? (fun rr => rr.1 == l.2 && rr.2 == name)).isSome) with
    | some l => (Except.ok l.2, s)
    | none => (Except.error KErr.enokey, s)
  createKeyring := fun parent name s =>
    (Except.ok s.nextId,
      { s with nextId := s.nextId + 1,
               rings := (s.nextId, name) :: s.rings,
               links := (parent, s.nextId) :: s.links })
  listKeyring := fun ring s => (Except.ok (s.ringLinks ring), s)
  keyInfo := fun obj s =>
    match s.keyById obj with
    | some k => (Except.ok { typ := "key", name := k.name }, s)
    | none =>
      match s.rings.find? (fun rr => rr.1 == obj) with
      | some rr => (Except.ok { typ := "keyring", name := rr.2 }, s)
      | none => (Except.error (KErr.other 22), s)
  keyUnlink := fun obj s => (Except.ok (), { s with links := s.links.filter (fun l => l.2 != obj) })

/-- The five-call relay protocol for creating key `name`/`data` with
permissions `perm` destined for container `dst`, as performed by Set,
given that the session resolves to `session` and the add yields `key`. -/
def relayKeyProtocol (session key dst : Nat) (name : String) (data : List Nat) (perm : Nat) : List KCall :=
  [KCall.sessionKeyring, KCall.addKey session name data,
   KCall.setPermCall key perm, KCall.linkCall dst key, KCall.unlinkCall session key]

/-- The five-call relay protocol for creating keyring `name` with
permissions `perm` destined for container `dst`, as performed by
createNamedKeyring, given that the session resolves to `session` and
the create yields `kr`. -/
def relayRingProtocol (session kr dst : Nat) (name : String) (perm : Nat) : List KCall :=
  [KCall.sessionKeyring, KCall.createKeyringCall session name,
   KCall.setPermCall kr perm, KCall.linkCall dst kr, KCall.unlinkCall session kr]

/-- Truth of "this Except is a success". -/
def exOk {ε α : Type} : Except ε α → Prop
  | Except.ok _ => True
  | Except.error _ => False

instance {ε α : Type} (x : Except ε α) : Decidable (exOk x) := by
  cases x <;> simp [exOk] <;> infer_instance

/-- Projection of the trace kernel's openKeyring capability. -/
theorem traceKernel_openKeyring (r : Responses) :
    (traceKernel r).openKeyring =
      fun parent name t => (r.openKeyring parent name, t ++ [KCall.openKeyringCall parent name]) := rfl

/-- Projection of the pure kernel's listKeyring capability. -/
theorem pureKernel_listKeyring (r : Responses) :
    (pureKernel r).listKeyring = fun ring s => (r.listKeyring ring, s) := rfl

/-- Projection of the pure kernel's keyInfo capability. -/
theorem pureKernel_keyInfo (r : Responses) :
    (pureKernel r).keyInfo = fun obj s => (r.keyInfo obj, s) := rfl

/-- C9: for every name argument, GetMetadata fails with the fixed
sentinel ErrMetadataNotSupported, returns an empty Metadata value, and
makes no kernel call (the recorded trace stays empty). -/
theorem getMetadata_unsupported_no_kernel_call (r : Responses) (k : keyctlKeyring) (name : String) :
    keyctlKeyring.GetMetadata (traceKernel r) k name [] =
      (({}, some GoErr.metadataNotSupported), []) := rfl

/-- C4: Get maps an ENOKEY search failure to the sentinel ErrKeyNotFound
itself (not a wrapped or formatted error); any other search failure and
any payload-read failure is surfaced unwrapped; on success it returns
the Item with the requested name and the payload read. -/
theorem Get_error_classification (r : Responses) (k : keyctlKeyring) (name : String) :
    (r.search k.keyring name = Except.error KErr.enokey →
        (keyctlKeyring.Get (pureKernel r) k name ()).1 = Except.error GoErr.keyNotFound)
    ∧ (∀ e, r.search k.keyring name = Except.error e → e ≠ KErr.enokey →
        (keyctlKeyring.Get (pureKernel r) k name ()).1 = Except.error (GoErr.raw e))
    ∧ (∀ key e, r.search k.keyring name = Except.ok key →
        r.readKey key = Except.error e →
        (keyctlKeyring.Get (pureKernel r) k name ()).1 = Except.error (GoErr.raw e))
    ∧ (∀ key data, r.search k.keyring name = Except.ok key →
        r.readKey key = Except.ok data →
        (keyctlKeyring.Get (pureKernel r) k name ()).1 =
          Except.ok { Key := name, Data := data }) := by
  refine ⟨fun h => ?_, fun e h hne => ?_, fun key e h h2 => ?_, fun key data h h2 => ?_⟩
  · simp [keyctlKeyring.Get, pureKernel, h]
  · simp [keyctlKeyring.Get, pureKernel, h, hne]
  · simp [keyctlKeyring.Get, pureKernel, h, h2]
  · simp [keyctlKeyring.Get, pureKernel, h, h2]

/-- Witness for C4: at the all-success responses, Get returns the item
with the requested name and the read payload. -/
theorem Get_error_classification_witness :
    (keyctlKeyring.Get (pureKernel okResponses) { keyring := 9, perm := 0 } ("a") ()).1 =
      Except.ok { Key := ("a"), Data := [7] } :=
  (Get_error_classification okResponses { keyring := 9, perm := 0 } ("a")).2.2.2 10 [7] rfl rfl

/-- C5: Remove reports every search failure, of any kind, as the
sentinel ErrKeyNotFound, discarding the underlying cause; when the
search succeeds it unlinks the found object and returns the unlink
result (success, or the unlink error unwrapped). -/
theorem Remove_collapses_search_failures (r : Responses) (k : keyctlKeyring) (name : String) :
    (∀ e, r.search k.keyring name = Except.error e →
        (keyctlKeyring.Remove (pureKernel r) k name ()).1 = Except.error GoErr.keyNotFound)
    ∧ (∀ key, r.search k.keyring name = Except.ok key →
        (keyctlKeyring.Remove (pureKernel r) k name ()).1 =
          match r.keyUnlink key with
          | Except.ok _ => Except.ok ()
          | Except.error e => Except.error (GoErr.raw e)) := by
  refine ⟨fun e h => ?_, fun key h => ?_⟩
  · simp [keyctlKeyring.Remove, pureKernel, h]
  · cases h2 : r.keyUnlink key with
    | ok u => simp [keyctlKeyring.Remove, pureKernel, h, h2]
    | error e => simp [keyctlKeyring.Remove, pureKernel, h, h2]

/-- Witness for C5: a search failing with an errno other than ENOKEY is
still reported as the not-found sentinel. -/
theorem Remove_collapses_search_failures_witness :
    (keyctlKeyring.Remove
        (pureKernel { okResponses with search := fun _ _ => Except.error (KErr.other 13) })
        { keyring := 9, perm := 0 } ("a") ()).1 = Except.error GoErr.keyNotFound :=
  (Remove_collapses_search_failures
      { okResponses with search := fun _ _ => Except.error (KErr.other 13) }
      { keyring := 9, perm := 0 } ("a")).1 (KErr.other 13) rfl

/-- C3: scope resolution accepts exactly user, session, process and
thread, requesting the corresponding kernel keyring handle (the single
recorded call) and passing any resolver failure through; every other
scope string, including the empty string and the reserved "group",
fails with an error while the recorded trace stays empty, so no kernel
facility call is ever attempted. -/
theorem scope_resolution_spec (r : Responses) (scope : String) :
    (scope = "user" →
        GetKeyringForScope (traceKernel r) scope [] =
          (match r.userSessionKeyring with
           | Except.ok h => Except.ok h
           | Except.error e => Except.error (GoErr.raw e), [KCall.userSessionKeyring]))
    ∧ (scope = "session" →
        GetKeyringForScope (traceKernel r) scope [] =
          (match r.sessionKeyring with
           | Except.ok h => Except.ok h
           | Except.error e => Except.error (GoErr.raw e), [KCall.sessionKeyring]))
    ∧ (scope = "process" →
        GetKeyringForScope (traceKernel r) scope [] =
          (match r.processKeyring with
           | Except.ok h => Except.ok h
           | Except.error e => Except.error (GoErr.raw e), [KCall.processKeyring]))
    ∧ (scope = "thread" →
        GetKeyringForScope (traceKernel r) scope [] =
          (match r.threadKeyring with
           | Except.ok h => Except.ok h
           | Except.error e => Except.error (GoErr.raw e), [KCall.threadKeyring]))
    ∧ (scope ≠ "user" → scope ≠ "session" → scope ≠ "process" → scope ≠ "thread" →
        GetKeyringForScope (traceKernel r) scope [] =
          (Except.error (if scope = "group" then GoErr.msgf msgScopeNotImplemented scope
                         else GoErr.msgf msgUnknownScope scope), [])) := by
  refine ⟨fun h => ?_, fun h => ?_, fun h => ?_, fun h => ?_, fun h1 h2 h3 h4 => ?_⟩
  · subst h
    cases hh : r.userSessionKeyring <;> simp [GetKeyringForScope, traceKernel, hh]
  · subst h
    cases hh : r.sessionKeyring <;> simp [GetKeyringForScope, traceKernel, hh]
  · subst h
    cases hh : r.processKeyring <;> simp [GetKeyringForScope, traceKernel, hh]
  · subst h
    cases hh : r.threadKeyring <;> simp [GetKeyringForScope, traceKernel, hh]
  · by_cases hg : scope = "group" <;> simp [GetKeyringForScope, traceKernel, h1, h2, h3, h4, hg]

/-- Witness for C3: the reserved scope "group" fails with no kernel
call recorded. -/
theorem scope_resolution_spec_witness :
    GetKeyringForScope (traceKernel okResponses) ("group") [] =
      (Except.error (GoErr.msgf msgScopeNotImplemented ("group")), []) := by
  have h := (scope_resolution_spec okResponses ("group")).2.2.2.2
    (by decide) (by decide) (by decide) (by decide)
  simpa using h

/-- C7: with a zero permission mask the relay is bypassed: Set is a
single direct add into the resolved container and createNamedKeyring a
single direct create under the parent — the whole recorded trace is
that one call, so there is no session detour, no permission call and
no link or unlink. -/
theorem zero_mask_direct_path (r : Responses) (k : keyctlKeyring) (h : k.perm = 0) :
    (∀ item, keyctlKeyring.Set (traceKernel r) k item [] =
        (match r.add k.keyring item.Key item.Data with
         | Except.ok _ => Except.ok ()
         | Except.error e => Except.error (GoErr.raw e),
         [KCall.addKey k.keyring item.Key item.Data]))
    ∧ (∀ parent name, keyctlKeyring.createNamedKeyring (traceKernel r) k parent name [] =
        (match r.createKeyring parent name with
         | Except.ok kr => Except.ok kr
         | Except.error e => Except.error (GoErr.raw e),
         [KCall.createKeyringCall parent name])) := by
  constructor
  · intro item
    cases hh : r.add k.keyring item.Key item.Data <;>
      simp [keyctlKeyring.Set, traceKernel, h, hh]
  · intro parent name
    cases hh : r.createKeyring parent name <;>
      simp [keyctlKeyring.createNamedKeyring, traceKernel, h, hh]

/-- Witness for C7: a zero-mask Set records exactly the one direct add. -/
theorem zero_mask_direct_path_witness :
    keyctlKeyring.Set (traceKernel okResponses) { keyring := 9, perm := 0 }
        { Key := ("a"), Data := [7] } [] =
      (Except.ok (), [KCall.addKey 9 ("a") [7]]) := by
  have h := (zero_mask_direct_path okResponses { keyring := 9, perm := 0 } rfl).1
    { Key := ("a"), Data := [7] }
  simpa [okResponses] using h

/-- Every successful construction carries the mask computed by the
opener guard: the configured value when positive, zero otherwise. -/
theorem openKeyctl_perm {σ : Type} (κ : Kernel σ) (cfg : Config) (s : σ) (kr : keyctlKeyring)
    (hok : (openKeyctl κ cfg s).1 = Except.ok kr) :
    kr.perm = if 0 < cfg.KeyCtlPerm then cfg.KeyCtlPerm.toNat else 0 := by
  simp only [openKeyctl] at hok
  split at hok
  · simp at hok
  · split at hok
    · simp at hok
      rw [← hok]
    · split at hok
      · simp at hok
        rw [← hok]
      · split at hok
        · split at hok
          · simp at hok
          · simp at hok
            rw [← hok]
        · simp at hok

/-- C10: only a strictly positive configured mask arms the relay: any
adapter successfully constructed from a zero or negative KeyCtlPerm has
mask zero, and its Set and named-keyring creation each record exactly
the single direct call, identically to a zero mask. -/
theorem nonpositive_mask_direct_path (r : Responses) (cfg : Config) (kr : keyctlKeyring)
    (hm : cfg.KeyCtlPerm ≤ 0)
    (hok : (openKeyctl (traceKernel r) cfg []).1 = Except.ok kr) :
    kr.perm = 0
    ∧ (∀ item, (keyctlKeyring.Set (traceKernel r) kr item []).2 =
        [KCall.addKey kr.keyring item.Key item.Data])
    ∧ (∀ parent name, (keyctlKeyring.createNamedKeyring (traceKernel r) kr parent name []).2 =
        [KCall.createKeyringCall parent name]) := by
  have hp : kr.perm = 0 := by
    have h := openKeyctl_perm (traceKernel r) cfg [] kr hok
    rwa [if_neg (not_lt.mpr hm)] at h
  refine ⟨hp, fun item => ?_, fun parent name => ?_⟩
  · cases hh : r.add kr.keyring item.Key item.Data <;>
      simp [keyctlKeyring.Set, traceKernel, hp, hh]
  · cases hh : r.createKeyring parent name <;>
      simp [keyctlKeyring.createNamedKeyring, traceKernel, hp, hh]

/-- Witness for C10: a configuration with mask -3 opens an adapter whose
Set records only the direct add. -/
theorem nonpositive_mask_direct_path_witness :
    (keyctlKeyring.Set (traceKernel okResponses) { keyring := 1, perm := 0 }
        { Key := ("a"), Data := [7] } []).2 = [KCall.addKey 1 ("a") [7]] :=
  (nonpositive_mask_direct_path okResponses
      { KeyCtlScope := ("user"), ServiceName := "", KeyCtlPerm := -3 }
      { keyring := 1, perm := 0 } (by decide) (by rfl)).2.1
    { Key := ("a"), Data := [7] }

/-- C1: with a non-zero mask, Set and createNamedKeyring perform the
same fixed protocol in this exact order: resolve the session keyring,
create the object as a child of the session keyring, apply the
permission mask, link the object into the destination, unlink it from
the session keyring.  The recorded trace in every outcome is the
protocol cut right after the failing call: a session, add or create
failure stops after that call, a set-permission failure leaves the
trace at three calls (neither link nor unlink attempted), a link
failure leaves it at four (unlink never attempted), and only full
success or an unlink failure reaches all five. -/
theorem relay_protocol_order (r : Responses) (k : keyctlKeyring) (h : k.perm ≠ 0) :
    (∀ item : Item,
      (∀ e, r.sessionKeyring = Except.error e →
          keyctlKeyring.Set (traceKernel r) k item [] =
            (Except.error (GoErr.wrapped msgAccessSession (GoErr.raw e)),
             [KCall.sessionKeyring]))
      ∧ (∀ session, r.sessionKeyring = Except.ok session →
          (∀ e, r.add session item.Key item.Data = Except.error e →
              keyctlKeyring.Set (traceKernel r) k item [] =
                (Except.error (GoErr.wrapped msgAddSession (GoErr.raw e)),
                 [KCall.sessionKeyring, KCall.addKey session item.Key item.Data]))
          ∧ (∀ key, r.add session item.Key item.Data = Except.ok key →
              (∀ e, r.setPerm key k.perm = Except.error e →
                  keyctlKeyring.Set (traceKernel r) k item [] =
                    (Except.error (GoErr.wrapped msgSetPerm (GoErr.raw e)),
                     (relayKeyProtocol session key k.keyring item.Key item.Data k.perm).take 3))
              ∧ (r.setPerm key k.perm = Except.ok () →
                  (∀ e, r.link k.keyring key = Except.error e →
                      keyctlKeyring.Set (traceKernel r) k item [] =
                        (Except.error (GoErr.wrapped msgLinkKey (GoErr.raw e)),
                         (relayKeyProtocol session key k.keyring item.Key item.Data k.perm).take 4))
                  ∧ (r.link k.keyring key = Except.ok () →
                      (∀ e, r.unlink session key = Except.error e →
                          keyctlKeyring.Set (traceKernel r) k item [] =
                            (Except.error (GoErr.wrapped msgUnlinkKey (GoErr.raw e)),
                             relayKeyProtocol session key k.keyring item.Key item.Data k.perm))
                      ∧ (r.unlink session key = Except.ok () →
                          keyctlKeyring.Set (traceKernel r) k item [] =
                            (Except.ok (),
                             relayKeyProtocol session key k.keyring item.Key item.Data k.perm)))))))
    ∧ (∀ parent : Nat, ∀ name : String,
      (∀ e, r.sessionKeyring = Except.error e →
          keyctlKeyring.createNamedKeyring (traceKernel r) k parent name [] =
            (Except.error (GoErr.wrapped msgAccessSession (GoErr.raw e)),
             [KCall.sessionKeyring]))
      ∧ (∀ session, r.sessionKeyring = Except.ok session →
          (∀ e, r.createKeyring session name = Except.error e →
              keyctlKeyring.createNamedKeyring (traceKernel r) k parent name [] =
                (Except.error (GoErr.wrapped msgCreateKeyring (GoErr.raw e)),
                 [KCall.sessionKeyring, KCall.createKeyringCall session name]))
          ∧ (∀ kr, r.createKeyring session name = Except.ok kr →
              (∀ e, r.setPerm kr k.perm = Except.error e →
                  keyctlKeyring.createNamedKeyring (traceKernel r) k parent name [] =
                    (Except.error (GoErr.wrapped msgSetPerm (GoErr.raw e)),
                     (relayRingProtocol session kr k.keyring name k.perm).take 3))
              ∧ (r.setPerm kr k.perm = Except.ok () →
                  (∀ e, r.link k.keyring kr = Except.error e →
                      keyctlKeyring.createNamedKeyring (traceKernel r) k parent name [] =
                        (Except.error (GoErr.wrapped msgLinkKeyring (GoErr.raw e)),
                         (relayRingProtocol session kr k.keyring name k.perm).take 4))
                  ∧ (r.link k.keyring kr = Except.ok () →
                      (∀ e, r.unlink session kr = Except.error e →
                          keyctlKeyring.createNamedKeyring (traceKernel r) k parent name [] =
                            (Except.error (GoErr.wrapped msgUnlinkKeyring (GoErr.raw e)),
                             relayRingProtocol session kr k.keyring name k.perm))
                      ∧ (r.unlink session kr = Except.ok () →
                          keyctlKeyring.createNamedKeyring (traceKernel r) k parent name [] =
                            (Except.ok kr,
                             relayRingProtocol session kr k.keyring name k.perm)))))))  := by
  constructor
  · intro item
    refine ⟨fun e he => ?_, fun session hs =>
      ⟨fun e he => ?_, fun key hk =>
        ⟨fun e he => ?_, fun hsp =>
          ⟨fun e he => ?_, fun hl =>
            ⟨fun e he => ?_, fun hu => ?_⟩⟩⟩⟩⟩
    · simp [keyctlKeyring.Set, traceKernel, h, he]
    · simp [keyctlKeyring.Set, traceKernel, h, hs, he]
    · simp [keyctlKeyring.Set, traceKernel, h, hs, hk, he, relayKeyProtocol]
    · simp [keyctlKeyring.Set, traceKernel, h, hs, hk, hsp, he, relayKeyProtocol]
    · simp [keyctlKeyring.Set, traceKernel, h, hs, hk, hsp, hl, he, relayKeyProtocol]
    · simp [keyctlKeyring.Set, traceKernel, h, hs, hk, hsp, hl, hu, relayKeyProtocol]
  · intro parent name
    refine ⟨fun e he => ?_, fun session hs =>
      ⟨fun e he => ?_, fun kr hk =>
        ⟨fun e he => ?_, fun hsp =>
          ⟨fun e he => ?_, fun hl =>
            ⟨fun e he => ?_, fun hu => ?_⟩⟩⟩⟩⟩
    · simp [keyctlKeyring.createNamedKeyring, traceKernel, h, he]
    · simp [keyctlKeyring.createNamedKeyring, traceKernel, h, hs, he]
    · simp [keyctlKeyring.createNamedKeyring, traceKernel, h, hs, hk, he, relayRingProtocol]
    · simp [keyctlKeyring.createNamedKeyring, traceKernel, h, hs, hk, hsp, he, relayRingProtocol]
    · simp [keyctlKeyring.createNamedKeyring, traceKernel, h, hs, hk, hsp, hl, he, relayRingProtocol]
    · simp [keyctlKeyring.createNamedKeyring, traceKernel, h, hs, hk, hsp, hl, hu, relayRingProtocol]

/-- Witness for C1: with a failing link primitive, a non-zero-mask Set
stops after four calls — the unlink is never attempted. -/
theorem relay_protocol_order_witness :
    keyctlKeyring.Set
        (traceKernel { okResponses with link := fun _ _ => Except.error (KErr.other 13) })
        { keyring := 9, perm := 5 } { Key := ("a"), Data := [7] } [] =
      (Except.error (GoErr.wrapped msgLinkKey (GoErr.raw (KErr.other 13))),
       (relayKeyProtocol 0 10 9 ("a") [7] 5).take 4) :=
  (((((relay_protocol_order
        { okResponses with link := fun _ _ => Except.error (KErr.other 13) }
        { keyring := 9, perm := 5 } (by decide)).1
      { Key := ("a"), Data := [7] }).2 0 rfl).2 10 rfl).2 rfl).1 (KErr.other 13) rfl

/-- C2: at construction, an empty container name leaves the parent
scope keyring as the target with no further kernel call; a non-empty
name is opened and its handle used when found; an ENOKEY open failure
routes into the permission-relay keyring-creation path
(createNamedKeyring); any other open failure is surfaced wrapped with
no creation call recorded. -/
theorem named_container_resolution (r : Responses) (cfg : Config) (parent : Nat)
    (tr0 : List KCall) (P : Nat)
    (hscope : GetKeyringForScope (traceKernel r) cfg.KeyCtlScope [] = (Except.ok parent, tr0))
    (hP : P = if 0 < cfg.KeyCtlPerm then cfg.KeyCtlPerm.toNat else 0) :
    (cfg.ServiceName = "" →
        openKeyctl (traceKernel r) cfg [] = (Except.ok { keyring := parent, perm := P }, tr0))
    ∧ (∀ named, cfg.ServiceName ≠ "" →
        r.openKeyring parent cfg.ServiceName = Except.ok named →
        openKeyctl (traceKernel r) cfg [] =
          (Except.ok { keyring := named, perm := P },
           tr0 ++ [KCall.openKeyringCall parent cfg.ServiceName]))
    ∧ (cfg.ServiceName ≠ "" →
        r.openKeyring parent cfg.ServiceName = Except.error KErr.enokey →
        openKeyctl (traceKernel r) cfg [] =
          (match keyctlKeyring.createNamedKeyring (traceKernel r)
              { keyring := parent, perm := P } parent cfg.ServiceName
              (tr0 ++ [KCall.openKeyringCall parent cfg.ServiceName]) with
           | (Except.error e2, t) => (Except.error (GoErr.wrapped msgCreateNamed e2), t)
           | (Except.ok named, t) => (Except.ok { keyring := named, perm := P }, t)))
    ∧ (∀ e, cfg.ServiceName ≠ "" →
        r.openKeyring parent cfg.ServiceName = Except.error e → e ≠ KErr.enokey →
        openKeyctl (traceKernel r) cfg [] =
          (Except.error (GoErr.wrapped msgOpenNamed (GoErr.raw e)),
           tr0 ++ [KCall.openKeyringCall parent cfg.ServiceName])) := by
  subst hP
  refine ⟨fun hn => ?_, fun named hn ho => ?_, fun hn ho => ?_, fun e hn ho hne => ?_⟩
  · simp only [openKeyctl]
    rw [hscope]
    simp [hn]
  · simp only [openKeyctl]
    rw [hscope]
    simp only [traceKernel_openKeyring]
    rw [ho]
    simp [hn]
  · simp only [openKeyctl]
    rw [hscope]
    simp only [traceKernel_openKeyring]
    rw [ho]
    simp [hn]
    rcases hcr : keyctlKeyring.createNamedKeyring (traceKernel r)
        { keyring := parent, perm := if 0 < cfg.KeyCtlPerm then cfg.KeyCtlPerm.toNat else 0 }
        parent cfg.ServiceName (tr0 ++ [KCall.openKeyringCall parent cfg.ServiceName])
      with ⟨res, t⟩
    cases res <;> simp
  · simp only [openKeyctl]
    rw [hscope]
    simp only [traceKernel_openKeyring]
    rw [ho]
    simp [hn, hne]

/-- Witness for C2: an open failure other than ENOKEY surfaces an error
and the trace shows no creation call was attempted. -/
theorem named_container_resolution_witness :
    openKeyctl
        (traceKernel { okResponses with openKeyring := fun _ _ => Except.error (KErr.other 13) })
        { KeyCtlScope := ("user"), ServiceName := ("svc"), KeyCtlPerm := 0 } [] =
      (Except.error (GoErr.wrapped msgOpenNamed (GoErr.raw (KErr.other 13))),
       [KCall.userSessionKeyring, KCall.openKeyringCall 1 ("svc")]) := by
  have h := (named_container_resolution
      { okResponses with openKeyring := fun _ _ => Except.error (KErr.other 13) }
      { KeyCtlScope := ("user"), ServiceName := ("svc"), KeyCtlPerm := 0 } 1
      [KCall.userSessionKeyring] 0 rfl (by decide)).2.2.2
      (KErr.other 13) (by decide) rfl (by decide)
  simpa using h

/-- Running the Keys loop over references whose descriptors all resolve
appends exactly the names of "key"-typed references, in order. -/
theorem keysLoop_all_ok (r : Responses) :
    ∀ (refs : List Nat) (acc : List String),
    (∀ ref ∈ refs, exOk (r.keyInfo ref)) →
    keysLoop (pureKernel r) refs acc () =
      ((some (acc ++ refs.filterMap (fun ref =>
          match r.keyInfo ref with
          | Except.ok info => if info.typ = "key" then some info.name else none
          | Except.error _ => none)), none), ()) := by
  intro refs
  induction refs with
  | nil => intro acc _; simp [keysLoop]
  | cons ref rest ih =>
    intro acc hall
    have h1 := hall ref (by simp)
    cases hh : r.keyInfo ref with
    | error e => rw [hh] at h1; simp [exOk] at h1
    | ok info =>
      have ih2 := ih (acc ++ [info.name]) (fun x hx => hall x (by simp [hx]))
      have ih3 := ih acc (fun x hx => hall x (by simp [hx]))
      simp only [keysLoop, pureKernel_keyInfo]
      rw [hh]
      by_cases ht : info.typ = "key"
      · simp only [ht, if_true, ih2]
        simp [hh, ht, List.filterMap_cons]
      · simp only [ht, if_false, ih3]
        simp [hh, ht, List.filterMap_cons]

/-- A descriptor failure anywhere in the Keys loop aborts the whole
walk with that error. -/
theorem keysLoop_abort (r : Responses) (b : Nat) (rest : List Nat) (e : KErr)
    (hb : r.keyInfo b = Except.error e) :
    ∀ (gs : List Nat) (acc : List String),
    (∀ ref ∈ gs, exOk (r.keyInfo ref)) →
    keysLoop (pureKernel r) (gs ++ b :: rest) acc () = ((none, some (GoErr.raw e)), ()) := by
  intro gs
  induction gs with
  | nil =>
    intro acc _
    simp only [List.nil_append, keysLoop, pureKernel_keyInfo]
    rw [hb]
  | cons g gs ih =>
    intro acc hgs
    have h1 := hgs g (by simp)
    cases hh : r.keyInfo g with
    | error e2 => rw [hh] at h1; simp [exOk] at h1
    | ok info =>
      have ih2 := ih (acc ++ [info.name]) (fun x hx => hgs x (by simp [hx]))
      have ih3 := ih acc (fun x hx => hgs x (by simp [hx]))
      simp only [List.cons_append, keysLoop, pureKernel_keyInfo]
      rw [hh]
      by_cases ht : info.typ = "key"
      · simp only [ht, if_true]
        exact ih2
      · simp only [ht, if_false]
        exact ih3

/-- C6: Keys returns exactly the names of the container's child
references whose descriptor type is "key", in listing order, excluding
sub-keyrings; with no leaf children it returns the empty non-nil slice;
and a listing failure or any per-reference descriptor failure aborts
the call with that error surfaced. -/
theorem Keys_filters_leaf_keys (r : Responses) (k : keyctlKeyring) :
    (∀ e, r.listKeyring k.keyring = Except.error e →
        (keyctlKeyring.Keys (pureKernel r) k ()).1 = (none, some (GoErr.raw e)))
    ∧ (∀ refs, r.listKeyring k.keyring = Except.ok refs →
        ((∀ ref ∈ refs, exOk (r.keyInfo ref)) →
            (keyctlKeyring.Keys (pureKernel r) k ()).1 =
              (some (refs.filterMap (fun ref =>
                  match r.keyInfo ref with
                  | Except.ok info => if info.typ = "key" then some info.name else none
                  | Except.error _ => none)), none))
        ∧ ((∀ ref ∈ refs, exOk (r.keyInfo ref)) →
            (∀ ref ∈ refs, ∀ info, r.keyInfo ref = Except.ok info → info.typ ≠ "key") →
            (keyctlKeyring.Keys (pureKernel r) k ()).1 = (some [], none))
        ∧ (∀ gs b rest e, refs = gs ++ b :: rest →
            (∀ ref ∈ gs, exOk (r.keyInfo ref)) →
            r.keyInfo b = Except.error e →
            (keyctlKeyring.Keys (pureKernel r) k ()).1 = (none, some (GoErr.raw e)))) := by
  have hunfold : ∀ refs, r.listKeyring k.keyring = Except.ok refs →
      keyctlKeyring.Keys (pureKernel r) k () = keysLoop (pureKernel r) refs [] () := by
    intro refs hl
    simp only [keyctlKeyring.Keys, pureKernel_listKeyring]
    rw [hl]
  refine ⟨fun e he => ?_, fun refs hl => ⟨fun hall => ?_, fun hall hnk => ?_, ?_⟩⟩
  · simp only [keyctlKeyring.Keys, pureKernel_listKeyring]
    rw [he]
  · rw [hunfold refs hl, keysLoop_all_ok r refs [] hall]
    simp
  · have hnil : refs.filterMap (fun ref =>
        match r.keyInfo ref with
        | Except.ok info => if info.typ = "key" then some info.name else none
        | Except.error _ => none) = [] := by
      rw [List.filterMap_eq_nil_iff]
      intro ref href
      cases hh : r.keyInfo ref with
      | error e2 => rfl
      | ok info => simp [hnk ref href info hh]
    have h := keysLoop_all_ok r refs [] hall
    rw [hnil] at h
    rw [hunfold refs hl, h]
    simp
  · intro gs b rest e hsplit hgs hb
    subst hsplit
    rw [hunfold (gs ++ b :: rest) hl, keysLoop_abort r b rest e hb gs [] hgs]

/-- Witness for C6: a listing with one sub-keyring reference and one
leaf-key reference enumerates exactly the leaf key's name. -/
theorem Keys_filters_leaf_keys_witness :
    (keyctlKeyring.Keys
        (pureKernel { okResponses with
          listKeyring := fun _ => Except.ok [4, 5],
          keyInfo := fun obj =>
            if obj = 4 then Except.ok { typ := "keyring", name := "sub" }
            else Except.ok { typ := "key", name := "t" } })
        { keyring := 9, perm := 0 } ()).1 = (some [("t")], none) := by
  have h := ((Keys_filters_leaf_keys { okResponses with
      listKeyring := fun _ => Except.ok [4, 5],
      keyInfo := fun obj =>
        if obj = 4 then Except.ok { typ := "keyring", name := "sub" }
        else Except.ok { typ := "key", name := "t" } }
      { keyring := 9, perm := 0 }).2 [4, 5] rfl).1 (by decide)
  rw [h]
  decide

/-- C8: over the in-memory facility model, a successful Set(item)
followed by Get(item.Key) on the same adapter returns an Item equal to
the one set — same name, same byte payload — for every starting kernel
state and for both the direct-add (zero mask) and relay (non-zero
mask) paths. -/
theorem set_get_roundtrip (s : ModelState) (k : keyctlKeyring) (item : Item)
    (_hok : exOk (keyctlKeyring.Set modelKernel k item s).1) :
    (keyctlKeyring.Get modelKernel k item.Key
        (keyctlKeyring.Set modelKernel k item s).2).1 = Except.ok item := by
  by_cases hp : k.perm = 0
  · simp [keyctlKeyring.Set, keyctlKeyring.Get, modelKernel, hp,
      ModelState.keyName, ModelState.keyById, List.find?]
  · by_cases h0 : k.keyring = 0
    · simp [keyctlKeyring.Set, keyctlKeyring.Get, modelKernel, hp, h0, sessionRingId,
        removeFirst, ModelState.keyName, ModelState.keyById, List.find?]
    · simp [keyctlKeyring.Set, keyctlKeyring.Get, modelKernel, hp, h0, sessionRingId,
        removeFirst, ModelState.keyName, ModelState.keyById, List.find?]

/-- Witness for C8: from an empty model state, a relay-path Set of a
concrete item followed by Get returns exactly that item. -/
theorem set_get_roundtrip_witness :
    (keyctlKeyring.Get modelKernel { keyring := 9, perm := 5 } ("t")
        (keyctlKeyring.Set modelKernel { keyring := 9, perm := 5 }
          { Key := ("t"), Data := [1, 2] } { nextId := 100, keys := [], rings := [], links := [] }).2).1 =
      Except.ok { Key := ("t"), Data := [1, 2] } :=
  set_get_roundtrip { nextId := 100, keys := [], rings := [], links := [] }
    { keyring := 9, perm := 5 } { Key := ("t"), Data := [1, 2] } (by decide)

end Keyctl
